import Mathlib

/-
  Verification of the nyc-tree-map core: phenology timing resolver
  (src/components/Map.tsx, src/utils/phenology.ts, src/data/speciesColors.ts),
  color engine (src/utils/colors.ts) and animation clock
  (src/hooks/useAnimation.ts), shallowly embedded in Lean 4.

  Day-of-year values that the code manipulates as JS numbers are modelled as
  rationals; integer-valued table data is modelled with Int fields.
-/

/-! ## Basic data model (src/data/types.ts) -/

/-- RGB triple, as in speciesColors.ts. -/
abbrev RGB := Int × Int × Int

/-- RGBA color as produced by colors.ts. -/
structure RGBA where
  r : Int
  g : Int
  b : Int
  a : Int
deriving DecidableEq, Repr

/-- Resolved SpeciesTiming record (types.ts): every field present. -/
structure SpeciesTiming where
  onset : Int
  peak : Int
  drop : Int
  peakColor : RGB
deriving DecidableEq, Repr

/-- An entry of the phenology table as consumed by Map.tsx.  The code guards
    the peak color with a JS truthiness test, so the field is optional here. -/
structure TableTiming where
  onset : Int
  peak : Int
  drop : Int
  peakColor : Option RGB
deriving DecidableEq, Repr

/-! ## String helpers modelling the JS string operations -/

/-- JS String.prototype.toLowerCase restricted to ASCII input, which is all the
    species data uses. -/
def lowerStr (s : String) : String :=
  String.mk (s.data.map Char.toLower)

/-- Bool test: needle occurs as a contiguous sublist of hay. -/
def charsContain (hay needle : List Char) : Bool :=
  needle.isPrefixOf hay ||
    match hay with
    | [] => false
    | _ :: t => charsContain t needle

/-- JS a.includes(b): b is a substring of a. -/
def strIncludes (a b : String) : Bool :=
  charsContain a.data b.data

/-! ## Species peak colors (src/data/speciesColors.ts) -/

/-- SPECIES_COLORS, in the stored (insertion) order of the source object. -/
def SPECIES_COLORS : List (String × RGB) := [
  ("ginkgo", (255, 225, 53)),
  ("Ginkgo biloba", (255, 225, 53)),
  ("red maple", (220, 20, 60)),
  ("Acer rubrum", (220, 20, 60)),
  ("Japanese maple", (220, 20, 60)),
  ("Acer palmatum", (220, 20, 60)),
  ("sweetgum", (200, 30, 70)),
  ("Liquidambar styraciflua", (200, 30, 70)),
  ("pin oak", (255, 140, 0)),
  ("Quercus palustris", (255, 140, 0)),
  ("red oak", (205, 92, 0)),
  ("Quercus rubra", (205, 92, 0)),
  ("scarlet oak", (255, 100, 0)),
  ("Quercus coccinea", (255, 100, 0)),
  ("white oak", (180, 120, 60)),
  ("Quercus alba", (180, 120, 60)),
  ("honeylocust", (218, 165, 32)),
  ("honey locust", (218, 165, 32)),
  ("Gleditsia triacanthos", (218, 165, 32)),
  ("American elm", (218, 180, 50)),
  ("Ulmus americana", (218, 180, 50)),
  ("littleleaf linden", (200, 170, 50)),
  ("Tilia cordata", (200, 170, 50)),
  ("silver linden", (200, 170, 50)),
  ("Tilia tomentosa", (200, 170, 50)),
  ("London planetree", (205, 133, 63)),
  ("London plane", (205, 133, 63)),
  ("Platanus x acerifolia", (205, 133, 63)),
  ("sycamore", (205, 133, 63)),
  ("Platanus occidentalis", (205, 133, 63)),
  ("Norway maple", (240, 200, 40)),
  ("Acer platanoides", (240, 200, 40)),
  ("silver maple", (230, 210, 80)),
  ("Acer saccharinum", (230, 210, 80)),
  ("sugar maple", (255, 120, 50)),
  ("Acer saccharum", (255, 120, 50)),
  ("Callery pear", (180, 50, 80)),
  ("Pyrus calleryana", (180, 50, 80)),
  ("Yoshino cherry", (240, 100, 70)),
  ("Prunus x yedoensis", (240, 100, 70)),
  ("Kwanzan cherry", (230, 90, 80)),
  ("Prunus serrulata", (230, 90, 80)),
  ("green ash", (160, 80, 100)),
  ("Fraxinus pennsylvanica", (160, 80, 100)),
  ("white ash", (170, 70, 110)),
  ("Fraxinus americana", (170, 70, 110)),
  ("Japanese zelkova", (230, 110, 50)),
  ("Zelkova serrata", (230, 110, 50)),
  ("tulip", (250, 220, 50)),
  ("tuliptree", (250, 220, 50)),
  ("Liriodendron tulipifera", (250, 220, 50)),
  ("flowering dogwood", (200, 60, 90)),
  ("Cornus florida", (200, 60, 90)),
  ("eastern redbud", (220, 190, 60)),
  ("Cercis canadensis", (220, 190, 60)),
  ("black locust", (210, 195, 70)),
  ("Robinia pseudoacacia", (210, 195, 70)),
  ("paper birch", (250, 230, 70)),
  ("Betula papyrifera", (250, 230, 70)),
  ("river birch", (240, 220, 60)),
  ("Betula nigra", (240, 220, 60))
]

/-- DEFAULT_PEAK_COLOR: rust orange. -/
def DEFAULT_PEAK_COLOR : RGB := (204, 85, 0)

/-- Exact-key lookup over SPECIES_COLORS (step 1 of getSpeciesPeakColor). -/
def findExactColor (species : String) : Option (String × RGB) :=
  SPECIES_COLORS.find? (fun kv => kv.1 == species)

/-- Case-insensitive key lookup (step 2 of getSpeciesPeakColor). -/
def findCaseInsensitiveColor (species : String) : Option (String × RGB) :=
  SPECIES_COLORS.find? (fun kv => lowerStr kv.1 == lowerStr species)

/-- Bidirectional substring scan in stored order (step 3). -/
def findSubstringColor (species : String) : Option (String × RGB) :=
  SPECIES_COLORS.find? (fun kv =>
    strIncludes (lowerStr species) (lowerStr kv.1) ||
      strIncludes (lowerStr kv.1) (lowerStr species))

/-- getSpeciesPeakColor: exact, then case-insensitive, then bidirectional
    substring match over SPECIES_COLORS in stored order, then the default. -/
def getSpeciesPeakColor (species : String) : RGB :=
  match findExactColor species with
  | some kv => kv.2
  | none =>
    match findCaseInsensitiveColor species with
    | some kv => kv.2
    | none =>
      match findSubstringColor species with
      | some kv => kv.2
      | none => DEFAULT_PEAK_COLOR

/-! ## Default timing bands and keyword heuristic (src/utils/phenology.ts) -/

/-- A DEFAULT_TIMING band: onset, peak and drop only; the source bands carry
    no peak color. -/
structure TimingBand where
  onset : Int
  peak : Int
  drop : Int
deriving DecidableEq, Repr

namespace DEFAULT_TIMING

def EARLY : TimingBand := ⟨265, 285, 305⟩

def MID : TimingBand := ⟨275, 295, 315⟩

def LATE : TimingBand := ⟨285, 305, 325⟩

def DEFAULT : TimingBand := ⟨280, 300, 320⟩

end DEFAULT_TIMING

/-- The early-turner condition of getDefaultTimingForSpecies, verbatim from
    the source disjunction. -/
def hasEarlyKeyword (lowerSpecies : String) : Bool :=
  strIncludes lowerSpecies "birch" ||
  strIncludes lowerSpecies "betula" ||
  strIncludes lowerSpecies "dogwood" ||
  strIncludes lowerSpecies "cornus" ||
  strIncludes lowerSpecies "sumac" ||
  strIncludes lowerSpecies "rhus" ||
  strIncludes lowerSpecies "sassafras"

/-- The late-holder condition of getDefaultTimingForSpecies. -/
def hasLateKeyword (lowerSpecies : String) : Bool :=
  strIncludes lowerSpecies "oak" ||
  strIncludes lowerSpecies "quercus" ||
  strIncludes lowerSpecies "beech" ||
  strIncludes lowerSpecies "fagus" ||
  strIncludes lowerSpecies "willow" ||
  strIncludes lowerSpecies "salix"

/-- The mid-season condition of getDefaultTimingForSpecies. -/
def hasMidKeyword (lowerSpecies : String) : Bool :=
  strIncludes lowerSpecies "maple" ||
  strIncludes lowerSpecies "acer" ||
  strIncludes lowerSpecies "ginkgo" ||
  strIncludes lowerSpecies "ash" ||
  strIncludes lowerSpecies "fraxinus"

/-- getDefaultTimingForSpecies: categorize a species name into a timing band
    by keyword, in the source order early, late, mid, default. -/
def getDefaultTimingForSpecies (species : String) : TimingBand :=
  let lowerSpecies := lowerStr species
  if hasEarlyKeyword lowerSpecies then DEFAULT_TIMING.EARLY
  else if hasLateKeyword lowerSpecies then DEFAULT_TIMING.LATE
  else if hasMidKeyword lowerSpecies then DEFAULT_TIMING.MID
  else DEFAULT_TIMING.DEFAULT

/-! ## Timing resolution per species (phenologyLookup in Map.tsx) -/

/-- JS object lookup on the phenology table, modelled over an association
    list with unique keys. -/
def lookupAssoc (table : List (String × TableTiming)) (key : String) :
    Option TableTiming :=
  (table.find? (fun kv => kv.1 == key)).map (fun kv => kv.2)

/-- One slot of the phenologyLookup built in Map.tsx: exact key lookup, then
    lookup of the lowercased name as a literal key; on a hit the entry is used
    with getSpeciesPeakColor filling a missing peak color, otherwise the
    keyword-heuristic band is used with getSpeciesPeakColor.  The Option result
    mirrors the nullable slot type of the lookup record. -/
def phenologyLookupEntry (phenologyData : List (String × TableTiming))
    (speciesName : String) : Option SpeciesTiming :=
  let phenology :=
    (lookupAssoc phenologyData speciesName).orElse
      (fun _ => lookupAssoc phenologyData (lowerStr speciesName))
  match phenology with
  | some ph =>
      some ⟨ph.onset, ph.peak, ph.drop,
        ph.peakColor.getD (getSpeciesPeakColor speciesName)⟩
  | none =>
      let defaultTiming := getDefaultTimingForSpecies speciesName
      some ⟨defaultTiming.onset, defaultTiming.peak, defaultTiming.drop,
        getSpeciesPeakColor speciesName⟩

/-- The full lookup: one slot per species index, in species-list order. -/
def phenologyLookup (species : List String)
    (phenologyData : List (String × TableTiming)) : List (Option SpeciesTiming) :=
  species.map (phenologyLookupEntry phenologyData)

/-! ## Color engine (src/utils/colors.ts) -/

/-- Fixed base colors from colors.ts. -/
def DIM_GREEN : RGBA := ⟨74, 90, 74, 200⟩

def BROWN_GRAY : RGBA := ⟨42, 42, 42, 150⟩

def INVISIBLE : RGBA := ⟨0, 0, 0, 0⟩

def MISSING_DATA : RGBA := ⟨80, 80, 80, 100⟩

/-- JS Math.round: round half towards positive infinity, which is exactly
    the Mathlib round on the rationals. -/
def jsRound (x : ℚ) : Int := round x

/-- lerpColor: clamp t to the unit interval, then blend each channel linearly
    and round.  In the source the inputs may omit the alpha channel, defaulted
    to 255; every call reached from getTreeColor passes all four channels, so
    the embedding takes full RGBA values. -/
def lerpColor (f t : RGBA) (tt : ℚ) : RGBA :=
  let tc := max 0 (min 1 tt)
  ⟨jsRound ((f.r : ℚ) + ((t.r : ℚ) - (f.r : ℚ)) * tc),
   jsRound ((f.g : ℚ) + ((t.g : ℚ) - (f.g : ℚ)) * tc),
   jsRound ((f.b : ℚ) + ((t.b : ℚ) - (f.b : ℚ)) * tc),
   jsRound ((f.a : ℚ) + ((t.a : ℚ) - (f.a : ℚ)) * tc)⟩

/-- The peak color with alpha 255, as built inline in getTreeColor. -/
def peakWithAlpha (timing : SpeciesTiming) : RGBA :=
  ⟨timing.peakColor.1, timing.peakColor.2.1, timing.peakColor.2.2, 255⟩

/-- getTreeColor: the four-phase piecewise color function. -/
def getTreeColor (timing : Option SpeciesTiming) (currentDOY : ℚ)
    (treeOffset : ℚ) : RGBA :=
  match timing with
  | none => MISSING_DATA
  | some timing =>
    let adjustedDOY := currentDOY - treeOffset
    if adjustedDOY < (timing.onset : ℚ) then
      DIM_GREEN
    else if adjustedDOY < (timing.peak : ℚ) then
      let progress := (adjustedDOY - (timing.onset : ℚ)) /
        ((timing.peak : ℚ) - (timing.onset : ℚ))
      let easedProgress := progress * progress
      lerpColor DIM_GREEN (peakWithAlpha timing) easedProgress
    else if adjustedDOY < (timing.drop : ℚ) then
      let progress := (adjustedDOY - (timing.peak : ℚ)) /
        ((timing.drop : ℚ) - (timing.peak : ℚ))
      let easedProgress := 1 - (1 - progress) ^ 2
      lerpColor (peakWithAlpha timing) BROWN_GRAY easedProgress
    else
      let daysPastDrop := adjustedDOY - (timing.drop : ℚ)
      if daysPastDrop < 7 then
        lerpColor BROWN_GRAY INVISIBLE (daysPastDrop / 7)
      else
        INVISIBLE

/-- getTreeColorChecked: the same function, but each evaluation of a quotient
    is guarded; a branch whose denominator is zero yields none instead of the
    (in JS: NaN-producing) division.  Used to state that no division by zero
    is ever performed. -/
def getTreeColorChecked (timing : Option SpeciesTiming) (currentDOY : ℚ)
    (treeOffset : ℚ) : Option RGBA :=
  match timing with
  | none => some MISSING_DATA
  | some timing =>
    let adjustedDOY := currentDOY - treeOffset
    if adjustedDOY < (timing.onset : ℚ) then
      some DIM_GREEN
    else if adjustedDOY < (timing.peak : ℚ) then
      if (timing.peak : ℚ) - (timing.onset : ℚ) = 0 then none
      else
        let progress := (adjustedDOY - (timing.onset : ℚ)) /
          ((timing.peak : ℚ) - (timing.onset : ℚ))
        let easedProgress := progress * progress
        some (lerpColor DIM_GREEN (peakWithAlpha timing) easedProgress)
    else if adjustedDOY < (timing.drop : ℚ) then
      if (timing.drop : ℚ) - (timing.peak : ℚ) = 0 then none
      else
        let progress := (adjustedDOY - (timing.peak : ℚ)) /
          ((timing.drop : ℚ) - (timing.peak : ℚ))
        let easedProgress := 1 - (1 - progress) ^ 2
        some (lerpColor (peakWithAlpha timing) BROWN_GRAY easedProgress)
    else
      let daysPastDrop := adjustedDOY - (timing.drop : ℚ)
      if daysPastDrop < 7 then
        some (lerpColor BROWN_GRAY INVISIBLE (daysPastDrop / 7))
      else
        some INVISIBLE

/-! ## Animation clock (src/hooks/useAnimation.ts) -/

/-- ANIMATION_BOUNDS.START_DOY. -/
def START_DOY : ℚ := 255

/-- ANIMATION_BOUNDS.END_DOY. -/
def END_DOY : ℚ := 330

/-- ANIMATION_BOUNDS.DEFAULT_DURATION, in seconds. -/
def DEFAULT_DURATION : ℚ := 45

/-- Clock state: the pieces of useAnimation state the claims concern.  The
    wall-clock last-tick reference lives outside this state; ticks take the
    already-computed elapsed milliseconds as input. -/
structure AnimationState where
  currentDOY : ℚ
  isPlaying : Bool
  speed : ℚ
deriving DecidableEq, Repr

/-- Initial state: paused at START_DOY with speed 1. -/
def initState : AnimationState := ⟨START_DOY, false, 1⟩

/-- getDOYPerMs: DOY units advanced per millisecond at the given speed. -/
def getDOYPerMs (speed : ℚ) : ℚ :=
  let totalDays := END_DOY - START_DOY
  let durationMs := DEFAULT_DURATION * 1000
  totalDays / durationMs * speed

/-- One animation tick (the setCurrentDOY updater inside animate), given the
    elapsed wall-clock milliseconds: advance, and wrap to START_DOY when the
    new value reaches END_DOY. -/
def animateTick (s : AnimationState) (deltaMs : ℚ) : AnimationState :=
  let newDOY := s.currentDOY + getDOYPerMs s.speed * deltaMs
  { s with currentDOY := if END_DOY ≤ newDOY then START_DOY else newDOY }

/-- play: no-op while playing, otherwise start playing. -/
def play (s : AnimationState) : AnimationState :=
  if s.isPlaying then s else { s with isPlaying := true }

/-- pause: stop playing, leaving currentDOY unchanged. -/
def pause (s : AnimationState) : AnimationState :=
  { s with isPlaying := false }

/-- toggle between play and pause. -/
def toggle (s : AnimationState) : AnimationState :=
  if s.isPlaying then pause s else play s

/-- setSpeed: store the new speed. -/
def setSpeed (s : AnimationState) (newSpeed : ℚ) : AnimationState :=
  { s with speed := newSpeed }

/-- seekTo: clamp the requested day into the animation bounds and overwrite
    currentDOY, regardless of play state. -/
def seekTo (s : AnimationState) (doy : ℚ) : AnimationState :=
  { s with currentDOY := max START_DOY (min END_DOY doy) }

/-- reset: pause, then jump back to START_DOY. -/
def reset (s : AnimationState) : AnimationState :=
  { pause s with currentDOY := START_DOY }

/-- The states reachable from the initial state by clock operations, under
    the standing assumptions of positive speed arguments and non-negative
    elapsed time, with ticks fired only while playing. -/
inductive Reachable : AnimationState → Prop where
  | init : Reachable initState
  | play {s} : Reachable s → Reachable (play s)
  | pause {s} : Reachable s → Reachable (pause s)
  | toggle {s} : Reachable s → Reachable (toggle s)
  | setSpeed {s} (sp : ℚ) : Reachable s → 0 < sp → Reachable (setSpeed s sp)
  | seekTo {s} (doy : ℚ) : Reachable s → Reachable (seekTo s doy)
  | reset {s} : Reachable s → Reachable (reset s)
  | tick {s} (deltaMs : ℚ) : Reachable s → s.isPlaying = true → 0 ≤ deltaMs →
      Reachable (animateTick s deltaMs)

/-! ## Diameter-to-radius scaling (getRadiusFromDiameter in Map.tsx) -/

/-- MIN_DBH: smallest tree diameter considered. -/
noncomputable def MIN_DBH : ℝ := 3

/-- MAX_DBH: largest tree diameter considered. -/
noncomputable def MAX_DBH : ℝ := 45

/-- DEFAULT_DBH: median diameter used for missing data. -/
noncomputable def DEFAULT_DBH : ℝ := 10

/-- MIN_RADIUS: smallest display radius in pixels. -/
noncomputable def MIN_RADIUS : ℝ := 1.5

/-- MAX_RADIUS: largest display radius in pixels. -/
noncomputable def MAX_RADIUS : ℝ := 22

/-- getRadiusFromDiameter: power scaling of DBH to display radius, with the
    default diameter substituted for missing (zero) data and the input
    clamped to the DBH range. -/
noncomputable def getRadiusFromDiameter (dbh : ℝ) : ℝ :=
  let effectiveDBH := if 0 < dbh then dbh else DEFAULT_DBH
  let clampedDBH := max MIN_DBH (min MAX_DBH effectiveDBH)
  let normalized := (clampedDBH / MIN_DBH) ^ (0.85 : ℝ)
  let maxNormalized := (MAX_DBH / MIN_DBH) ^ (0.85 : ℝ)
  MIN_RADIUS + normalized / maxNormalized * (MAX_RADIUS - MIN_RADIUS)

/-! ## Shared lemmas -/

/-- Every slot the resolver produces is a some: both branches of the match in
    phenologyLookupEntry construct a record. -/
lemma phenologyLookupEntry_isSome (phenologyData : List (String × TableTiming))
    (speciesName : String) : (phenologyLookupEntry phenologyData speciesName).isSome := by
  unfold phenologyLookupEntry
  rcases (lookupAssoc phenologyData speciesName).orElse
      (fun _ => lookupAssoc phenologyData (lowerStr speciesName)) with _ | ph <;> rfl

/-! ## Claim theorems: timing resolver -/

/-- Claim C1: for every species name and every non-empty phenology timing
    table, resolution yields a non-null SpeciesTiming record, and every
    species index of the built lookup is assigned a record. -/
theorem claim_C1_resolution_total (phenologyData : List (String × TableTiming))
    (speciesName : String) (species : List String) (hne : phenologyData ≠ []) :
    (∃ t, phenologyLookupEntry phenologyData speciesName = some t) ∧
    (∀ slot ∈ phenologyLookup species phenologyData, slot.isSome) := by
  constructor
  · have h := phenologyLookupEntry_isSome phenologyData speciesName
    exact Option.isSome_iff_exists.mp h
  · intro slot hmem
    rcases List.mem_map.mp hmem with ⟨name, _, rfl⟩
    exact phenologyLookupEntry_isSome phenologyData name

/-- Witness for C1 at a concrete one-entry table and species list. -/
theorem claim_C1_witness :
    (∃ t, phenologyLookupEntry [("pin oak", ⟨290, 312, 340, none⟩)] "sweetgum" = some t) ∧
    (∀ slot ∈ phenologyLookup ["sweetgum"] [("pin oak", ⟨290, 312, 340, none⟩)],
      slot.isSome) :=
  claim_C1_resolution_total [("pin oak", ⟨290, 312, 340, none⟩)] "sweetgum"
    ["sweetgum"] (by decide)

/-- Claim C5 counterexample: steps 1 and 2 miss, the bidirectional substring
    condition holds against the stored entry, yet the resolver does not return
    that entry (onset 265); it uses the keyword band (onset 275) instead. -/
theorem claim_C5_counterexample :
    lookupAssoc [("red maple", ⟨265, 285, 308, some (220, 20, 60)⟩)]
        "red maple cultivar" = none ∧
    lookupAssoc [("red maple", ⟨265, 285, 308, some (220, 20, 60)⟩)]
        (lowerStr "red maple cultivar") = none ∧
    strIncludes (lowerStr "red maple cultivar") (lowerStr "red maple") = true ∧
    (phenologyLookupEntry [("red maple", ⟨265, 285, 308, some (220, 20, 60)⟩)]
        "red maple cultivar").map (fun t => t.onset) ≠ some 265 := by
  decide

/-- Claim C5 (amended): the timing cascade has no substring step; when steps
    1 and 2 both miss, the resolver falls directly to the keyword-heuristic
    band, with the peak color from the independent color cascade. -/
theorem claim_C5_no_substring_step (phenologyData : List (String × TableTiming))
    (name : String)
    (h1 : lookupAssoc phenologyData name = none)
    (h2 : lookupAssoc phenologyData (lowerStr name) = none) :
    phenologyLookupEntry phenologyData name =
      some ⟨(getDefaultTimingForSpecies name).onset,
            (getDefaultTimingForSpecies name).peak,
            (getDefaultTimingForSpecies name).drop,
            getSpeciesPeakColor name⟩ := by
  simp [phenologyLookupEntry, h1, h2, Option.orElse]

/-- Witness for the amended C5 on the empty table. -/
theorem claim_C5_witness :
    phenologyLookupEntry [] "London planetree" =
      some ⟨(getDefaultTimingForSpecies "London planetree").onset,
            (getDefaultTimingForSpecies "London planetree").peak,
            (getDefaultTimingForSpecies "London planetree").drop,
            getSpeciesPeakColor "London planetree"⟩ :=
  claim_C5_no_substring_step [] "London planetree" rfl rfl

/-- Claim C6 counterexample: the lowercased name equals the lowercased form
    of the stored key, but because the key itself contains uppercase letters
    step 2 misses and the stored entry (onset 1) is not returned. -/
theorem claim_C6_counterexample :
    lowerStr "RED MAPLE" = lowerStr "Red Maple" ∧
    (phenologyLookupEntry [("Red Maple", ⟨1, 2, 3, some (9, 9, 9)⟩)]
        "RED MAPLE").map (fun t => t.onset) ≠ some 1 := by
  decide

/-- Claim C6 (amended): step 2 looks the lowercased name up as a literal key,
    so it matches exactly the entries whose stored key equals the lowercased
    name; keys are not themselves lowercased. -/
theorem claim_C6_step2_literal (phenologyData : List (String × TableTiming))
    (name : String) (ph : TableTiming)
    (h1 : lookupAssoc phenologyData name = none)
    (h2 : lookupAssoc phenologyData (lowerStr name) = some ph) :
    phenologyLookupEntry phenologyData name =
      some ⟨ph.onset, ph.peak, ph.drop,
        ph.peakColor.getD (getSpeciesPeakColor name)⟩ := by
  simp [phenologyLookupEntry, h1, h2, Option.orElse]

/-- Witness for the amended C6: a lowercase stored key is found for an
    uppercase query name. -/
theorem claim_C6_witness :
    phenologyLookupEntry [("red maple", ⟨11, 12, 13, some (1, 2, 3)⟩)] "Red Maple" =
      some ⟨11, 12, 13,
        (some ((1 : Int), (2 : Int), (3 : Int))).getD
          (getSpeciesPeakColor "Red Maple")⟩ :=
  claim_C6_step2_literal [("red maple", ⟨11, 12, 13, some (1, 2, 3)⟩)] "Red Maple"
    ⟨11, 12, 13, some (1, 2, 3)⟩ (by decide) (by decide)

/-- Claim C7 counterexample: names containing the keywords linden, prunus and
    pine all fall through to the default band of getDefaultTimingForSpecies;
    no dedicated group exists for them in the runtime heuristic. -/
theorem claim_C7_counterexample :
    strIncludes (lowerStr "American linden") "linden" = true ∧
    getDefaultTimingForSpecies "American linden" = DEFAULT_TIMING.DEFAULT ∧
    strIncludes (lowerStr "Prunus sargentii") "prunus" = true ∧
    getDefaultTimingForSpecies "Prunus sargentii" = DEFAULT_TIMING.DEFAULT ∧
    strIncludes (lowerStr "Austrian pine") "pine" = true ∧
    getDefaultTimingForSpecies "Austrian pine" = DEFAULT_TIMING.DEFAULT := by
  decide

/-- Claim C7 (amended): the runtime keyword heuristic recognizes exactly three
    groups, early (birch, betula, dogwood, cornus, sumac, rhus, sassafras),
    late (oak, quercus, beech, fagus, willow, salix) and mid (maple, acer,
    ginkgo, ash, fraxinus), each mapped to a hardcoded onset, peak, drop band
    without a peak color; every other name, including those containing linden,
    prunus or pine, falls through to the default band. -/
theorem claim_C7_keyword_groups (s : String) :
    (hasEarlyKeyword (lowerStr s) = true →
        getDefaultTimingForSpecies s = DEFAULT_TIMING.EARLY) ∧
    (hasEarlyKeyword (lowerStr s) = false → hasLateKeyword (lowerStr s) = true →
        getDefaultTimingForSpecies s = DEFAULT_TIMING.LATE) ∧
    (hasEarlyKeyword (lowerStr s) = false → hasLateKeyword (lowerStr s) = false →
        hasMidKeyword (lowerStr s) = true →
        getDefaultTimingForSpecies s = DEFAULT_TIMING.MID) ∧
    (hasEarlyKeyword (lowerStr s) = false → hasLateKeyword (lowerStr s) = false →
        hasMidKeyword (lowerStr s) = false →
        getDefaultTimingForSpecies s = DEFAULT_TIMING.DEFAULT) := by
  refine ⟨?_, ?_, ?_, ?_⟩
  · intro h1
    simp [getDefaultTimingForSpecies, h1]
  · intro h1 h2
    simp [getDefaultTimingForSpecies, h1, h2]
  · intro h1 h2 h3
    simp [getDefaultTimingForSpecies, h1, h2, h3]
  · intro h1 h2 h3
    simp [getDefaultTimingForSpecies, h1, h2, h3]

/-- Witness for the amended C7: a pine name matches no group and lands in the
    default band. -/
theorem claim_C7_witness :
    getDefaultTimingForSpecies "Austrian pine" = DEFAULT_TIMING.DEFAULT :=
  (claim_C7_keyword_groups "Austrian pine").2.2.2 (by decide) (by decide) (by decide)

/-! ## Color engine lemmas -/

/-- Interpolating at progress zero returns the first color exactly. -/
lemma lerpColor_zero (f t : RGBA) : lerpColor f t 0 = f := by
  have hmin : min (1 : ℚ) 0 = 0 := by norm_num
  have hmax : max (0 : ℚ) 0 = 0 := by norm_num
  simp [lerpColor, jsRound, hmin, hmax]

/-- Dormant phase: before onset the color is the dim green base. -/
lemma getTreeColor_dormant (t : SpeciesTiming) (doy off : ℚ)
    (h : doy - off < (t.onset : ℚ)) :
    getTreeColor (some t) doy off = DIM_GREEN := by
  simp [getTreeColor, h]

/-- At the onset boundary with zero offset the color is exactly the dim
    green base. -/
lemma getTreeColor_at_onset (t : SpeciesTiming) (h1 : t.onset < t.peak) :
    getTreeColor (some t) (t.onset : ℚ) 0 = DIM_GREEN := by
  have hcast : ((t.onset : ℚ)) < (t.peak : ℚ) := by exact_mod_cast h1
  simp only [getTreeColor, sub_zero]
  rw [if_neg (lt_irrefl _), if_pos hcast]
  simp [sub_self, zero_div, lerpColor_zero]

/-- At the peak boundary with zero offset the color is exactly the peak color
    with full alpha. -/
lemma getTreeColor_at_peak (t : SpeciesTiming) (h1 : t.onset < t.peak)
    (h2 : t.peak < t.drop) :
    getTreeColor (some t) (t.peak : ℚ) 0 = peakWithAlpha t := by
  have hc1 : ((t.onset : ℚ)) < (t.peak : ℚ) := by exact_mod_cast h1
  have hc2 : ((t.peak : ℚ)) < (t.drop : ℚ) := by exact_mod_cast h2
  simp only [getTreeColor, sub_zero]
  rw [if_neg (not_lt.mpr (le_of_lt hc1)), if_neg (lt_irrefl _), if_pos hc2]
  have heased : 1 - (1 - ((t.peak : ℚ) - (t.peak : ℚ)) /
      ((t.drop : ℚ) - (t.peak : ℚ))) ^ 2 = 0 := by
    rw [sub_self, zero_div]
    ring
  rw [heased, lerpColor_zero]

/-- At the drop boundary with zero offset the color is exactly the brown
    gray, the start of the seven-day fade. -/
lemma getTreeColor_at_drop (t : SpeciesTiming) (h1 : t.onset < t.peak)
    (h2 : t.peak < t.drop) :
    getTreeColor (some t) (t.drop : ℚ) 0 = BROWN_GRAY := by
  have hc1 : ((t.onset : ℚ)) < (t.drop : ℚ) := by exact_mod_cast h1.trans h2
  have hc2 : ((t.peak : ℚ)) < (t.drop : ℚ) := by exact_mod_cast h2
  simp only [getTreeColor, sub_zero]
  rw [if_neg (not_lt.mpr (le_of_lt hc1)), if_neg (not_lt.mpr (le_of_lt hc2)),
    if_neg (lt_irrefl _)]
  rw [sub_self, zero_div, if_pos (by norm_num : (0 : ℚ) < 7), lerpColor_zero]

/-- Seven days or more past drop with zero offset the color is fully
    transparent. -/
lemma getTreeColor_past_fade (t : SpeciesTiming) (h1 : t.onset < t.peak)
    (h2 : t.peak < t.drop) (d : ℚ) (hd : (t.drop : ℚ) + 7 ≤ d) :
    getTreeColor (some t) d 0 = INVISIBLE := by
  have hc2 : ((t.peak : ℚ)) < (t.drop : ℚ) := by exact_mod_cast h2
  have hc1 : ((t.onset : ℚ)) < (t.drop : ℚ) := by
    exact_mod_cast h1.trans h2
  have hdrop : (t.drop : ℚ) ≤ d := by linarith
  simp only [getTreeColor, sub_zero]
  rw [if_neg (by linarith : ¬ d < (t.onset : ℚ)),
    if_neg (by linarith : ¬ d < (t.peak : ℚ)),
    if_neg (by linarith : ¬ d < (t.drop : ℚ)),
    if_neg (by linarith : ¬ d - (t.drop : ℚ) < 7)]

/-! ## Claim theorems: color engine -/

/-- Claim C2: for every timing with onset strictly before peak strictly
    before drop and zero entity offset, the color is exactly (74,90,74,200)
    at onset, exactly the peak color with alpha 255 at peak, exactly
    (42,42,42,150) at drop and exactly (0,0,0,0) from drop plus seven days
    on; in particular for the timing (265, 285, 305, (220,20,60)) the outputs
    at days 265, 285, 305 and 312 are those four values. -/
theorem claim_C2_boundary_colors (t : SpeciesTiming) (h1 : t.onset < t.peak)
    (h2 : t.peak < t.drop) :
    getTreeColor (some t) (t.onset : ℚ) 0 = ⟨74, 90, 74, 200⟩ ∧
    getTreeColor (some t) (t.peak : ℚ) 0 =
      ⟨t.peakColor.1, t.peakColor.2.1, t.peakColor.2.2, 255⟩ ∧
    getTreeColor (some t) (t.drop : ℚ) 0 = ⟨42, 42, 42, 150⟩ ∧
    (∀ d : ℚ, (t.drop : ℚ) + 7 ≤ d → getTreeColor (some t) d 0 = ⟨0, 0, 0, 0⟩) ∧
    getTreeColor (some ⟨265, 285, 305, (220, 20, 60)⟩) 265 0 = ⟨74, 90, 74, 200⟩ ∧
    getTreeColor (some ⟨265, 285, 305, (220, 20, 60)⟩) 285 0 = ⟨220, 20, 60, 255⟩ ∧
    getTreeColor (some ⟨265, 285, 305, (220, 20, 60)⟩) 305 0 = ⟨42, 42, 42, 150⟩ ∧
    getTreeColor (some ⟨265, 285, 305, (220, 20, 60)⟩) 312 0 = ⟨0, 0, 0, 0⟩ := by
  refine ⟨getTreeColor_at_onset t h1, getTreeColor_at_peak t h1 h2,
    getTreeColor_at_drop t h1 h2, getTreeColor_past_fade t h1 h2, ?_, ?_, ?_, ?_⟩
  · simpa using getTreeColor_at_onset ⟨265, 285, 305, (220, 20, 60)⟩ (by decide)
  · simpa [peakWithAlpha] using
      getTreeColor_at_peak ⟨265, 285, 305, (220, 20, 60)⟩ (by decide) (by decide)
  · simpa [BROWN_GRAY] using
      getTreeColor_at_drop ⟨265, 285, 305, (220, 20, 60)⟩ (by decide) (by decide)
  · simpa [INVISIBLE] using
      getTreeColor_past_fade ⟨265, 285, 305, (220, 20, 60)⟩ (by decide) (by decide)
        312 (by norm_num)

/-- Witness for C2 at the concrete example timing. -/
theorem claim_C2_witness :
    getTreeColor (some ⟨265, 285, 305, (220, 20, 60)⟩)
      (((⟨265, 285, 305, (220, 20, 60)⟩ : SpeciesTiming).onset : ℚ)) 0 =
      ⟨74, 90, 74, 200⟩ :=
  (claim_C2_boundary_colors ⟨265, 285, 305, (220, 20, 60)⟩ (by decide) (by decide)).1

/-- Claim C3: for every timing with a degenerate phase (peak equal to onset
    or drop equal to peak, within an ordered band) and for every day and
    offset, the guarded evaluation performs no division by zero and returns
    exactly the value of the color function: the degenerate phase is skipped
    as an instantaneous transition and the result is a well-defined RGBA. -/
theorem claim_C3_degenerate_no_division (t : SpeciesTiming) (doy off : ℚ)
    (h1 : t.onset ≤ t.peak) (h2 : t.peak ≤ t.drop)
    (h3 : t.peak = t.onset ∨ t.drop = t.peak) :
    getTreeColorChecked (some t) doy off = some (getTreeColor (some t) doy off) := by
  simp only [getTreeColorChecked, getTreeColor]
  split_ifs with hA hB hC hD hE <;> first
    | rfl
    | (exfalso
       push_neg at *
       have honset : (t.onset : ℚ) < (t.peak : ℚ) := by linarith
       linarith)

/-- Witness for C3 at a timing whose turning phase is instantaneous. -/
theorem claim_C3_witness :
    getTreeColorChecked (some ⟨280, 280, 320, (1, 2, 3)⟩) 280 0 =
      some (getTreeColor (some ⟨280, 280, 320, (1, 2, 3)⟩) 280 0) :=
  claim_C3_degenerate_no_division ⟨280, 280, 320, (1, 2, 3)⟩ 280 0
    (by decide) (by decide) (Or.inl (by decide))

/-! ## Animation clock lemmas -/

/-- The day after a tick, written without the intermediate binding. -/
lemma animateTick_currentDOY (s : AnimationState) (deltaMs : ℚ) :
    (animateTick s deltaMs).currentDOY =
      if END_DOY ≤ s.currentDOY + getDOYPerMs s.speed * deltaMs then START_DOY
      else s.currentDOY + getDOYPerMs s.speed * deltaMs := rfl

/-- A tick does not change the play flag. -/
lemma animateTick_isPlaying (s : AnimationState) (deltaMs : ℚ) :
    (animateTick s deltaMs).isPlaying = s.isPlaying := rfl

/-- A tick does not change the speed. -/
lemma animateTick_speed (s : AnimationState) (deltaMs : ℚ) :
    (animateTick s deltaMs).speed = s.speed := rfl

/-- play does not change the day. -/
lemma play_currentDOY (s : AnimationState) : (play s).currentDOY = s.currentDOY := by
  unfold play
  split_ifs <;> rfl

/-- play does not change the speed. -/
lemma play_speed (s : AnimationState) : (play s).speed = s.speed := by
  unfold play
  split_ifs <;> rfl

/-- toggle does not change the day. -/
lemma toggle_currentDOY (s : AnimationState) : (toggle s).currentDOY = s.currentDOY := by
  unfold toggle pause
  split_ifs with hc
  · rfl
  · exact play_currentDOY s

/-- toggle does not change the speed. -/
lemma toggle_speed (s : AnimationState) : (toggle s).speed = s.speed := by
  unfold toggle pause
  split_ifs with hc
  · rfl
  · exact play_speed s

/-- The advancement rate is non-negative whenever the speed is. -/
lemma getDOYPerMs_nonneg (speed : ℚ) (h : 0 ≤ speed) : 0 ≤ getDOYPerMs speed := by
  unfold getDOYPerMs
  have hq : (0 : ℚ) ≤ (END_DOY - START_DOY) / (DEFAULT_DURATION * 1000) := by
    norm_num [END_DOY, START_DOY, DEFAULT_DURATION]
  exact mul_nonneg hq h

/-- Invariant of the clock: every reachable state has its day inside the
    animation bounds and a positive speed. -/
lemma reachable_invariant (s : AnimationState) (h : Reachable s) :
    START_DOY ≤ s.currentDOY ∧ s.currentDOY ≤ END_DOY ∧ 0 < s.speed := by
  induction h with
  | init =>
    refine ⟨le_refl _, by norm_num [initState, START_DOY, END_DOY], by norm_num [initState]⟩
  | play _ ih =>
    rename_i s' _
    rw [play_currentDOY s', play_speed s']
    exact ih
  | pause _ ih =>
    exact ih
  | toggle _ ih =>
    rename_i s' _
    rw [toggle_currentDOY s', toggle_speed s']
    exact ih
  | setSpeed sp _ hsp ih =>
    exact ⟨ih.1, ih.2.1, hsp⟩
  | seekTo doy _ ih =>
    refine ⟨le_max_left _ _, ?_, ih.2.2⟩
    exact max_le (by norm_num [START_DOY, END_DOY]) (min_le_left _ _)
  | reset _ ih =>
    refine ⟨le_refl _, ?_, ih.2.2⟩
    show (START_DOY : ℚ) ≤ END_DOY
    norm_num [START_DOY, END_DOY]
  | tick δ _ hp hδ ih =>
    rename_i s' _
    rw [animateTick_currentDOY s' δ, animateTick_speed s' δ]
    split_ifs with hw
    · exact ⟨le_refl _, by norm_num [START_DOY, END_DOY], ih.2.2⟩
    · have hstep : 0 ≤ getDOYPerMs s'.speed * δ :=
        mul_nonneg (getDOYPerMs_nonneg s'.speed (le_of_lt ih.2.2)) hδ
      refine ⟨le_trans ih.1 (le_add_of_nonneg_right hstep), le_of_lt (not_le.mp hw), ih.2.2⟩

/-! ## Claim theorems: animation clock -/

/-- Claim C4: while playing, a tick whose advanced value reaches or passes
    END_DOY wraps the day to exactly START_DOY: it does not clamp to END_DOY,
    does not stop playback, never leaves the day at or past the bound, and
    never yields a negative value. -/
theorem claim_C4_tick_wraps (s : AnimationState) (deltaMs : ℚ)
    (hp : s.isPlaying = true)
    (h : END_DOY ≤ s.currentDOY + getDOYPerMs s.speed * deltaMs) :
    (animateTick s deltaMs).currentDOY = START_DOY ∧
    (animateTick s deltaMs).isPlaying = true ∧
    0 ≤ (animateTick s deltaMs).currentDOY ∧
    (animateTick s deltaMs).currentDOY < END_DOY := by
  have hval : (animateTick s deltaMs).currentDOY = START_DOY := by
    rw [animateTick_currentDOY s deltaMs, if_pos h]
  rw [hval, animateTick_isPlaying s deltaMs]
  exact ⟨rfl, hp, by norm_num [START_DOY], by norm_num [START_DOY, END_DOY]⟩

/-- Witness for C4: a tick from the upper bound itself wraps to 255. -/
theorem claim_C4_witness :
    (animateTick ⟨330, true, 1⟩ 0).currentDOY = START_DOY ∧
    (animateTick ⟨330, true, 1⟩ 0).isPlaying = true ∧
    0 ≤ (animateTick ⟨330, true, 1⟩ 0).currentDOY ∧
    (animateTick ⟨330, true, 1⟩ 0).currentDOY < END_DOY :=
  claim_C4_tick_wraps ⟨330, true, 1⟩ 0 rfl
    (by norm_num [END_DOY, getDOYPerMs])

/-- Claim C8: seekTo clamps the requested day into the animation bounds and
    overwrites the current day immediately, in any play state: values below
    START_DOY become START_DOY, values above END_DOY become END_DOY, in-range
    values are stored as given, and the operation is total. -/
theorem claim_C8_seek_clamps (s : AnimationState) (doy : ℚ) :
    (seekTo s doy).isPlaying = s.isPlaying ∧
    START_DOY ≤ (seekTo s doy).currentDOY ∧
    (seekTo s doy).currentDOY ≤ END_DOY ∧
    (doy < START_DOY → (seekTo s doy).currentDOY = START_DOY) ∧
    (END_DOY < doy → (seekTo s doy).currentDOY = END_DOY) ∧
    (START_DOY ≤ doy → doy ≤ END_DOY → (seekTo s doy).currentDOY = doy) := by
  have hcd : (seekTo s doy).currentDOY = max START_DOY (min END_DOY doy) := rfl
  have hse : (START_DOY : ℚ) ≤ END_DOY := by norm_num [START_DOY, END_DOY]
  refine ⟨rfl, ?_, ?_, ?_, ?_, ?_⟩
  · rw [hcd]
    exact le_max_left _ _
  · rw [hcd]
    exact max_le hse (min_le_left _ _)
  · intro hlt
    rw [hcd, min_eq_right (le_of_lt (lt_of_lt_of_le hlt hse)), max_eq_left (le_of_lt hlt)]
  · intro hgt
    rw [hcd, min_eq_left (le_of_lt hgt), max_eq_right hse]
  · intro hge hle
    rw [hcd, min_eq_right hle, max_eq_right hge]

/-- Witness for C8: an out-of-range seek is clamped to the upper bound. -/
theorem claim_C8_witness :
    (seekTo initState 999).currentDOY = END_DOY :=
  (claim_C8_seek_clamps initState 999).2.2.2.2.1 (by norm_num [END_DOY])

/-- Claim C10: under positive speeds and non-negative tick times, every
    reachable clock state keeps the current day inside the animation bounds;
    moreover the initial state starts at START_DOY, a tick either stays below
    END_DOY or wraps to exactly START_DOY, every seek lands inside the bounds,
    reset restores START_DOY, and play, pause and setSpeed leave the current
    day unchanged. -/
theorem claim_C10_clock_invariant (s : AnimationState) (h : Reachable s) :
    (START_DOY ≤ s.currentDOY ∧ s.currentDOY ≤ END_DOY) ∧
    initState.currentDOY = START_DOY ∧
    (∀ s2 : AnimationState, ∀ δ : ℚ,
      (animateTick s2 δ).currentDOY < END_DOY ∨
      (animateTick s2 δ).currentDOY = START_DOY) ∧
    (∀ s2 : AnimationState, ∀ d : ℚ,
      START_DOY ≤ (seekTo s2 d).currentDOY ∧ (seekTo s2 d).currentDOY ≤ END_DOY) ∧
    (∀ s2 : AnimationState, (reset s2).currentDOY = START_DOY) ∧
    (∀ s2 : AnimationState, (play s2).currentDOY = s2.currentDOY ∧
      (pause s2).currentDOY = s2.currentDOY ∧
      ∀ sp : ℚ, (setSpeed s2 sp).currentDOY = s2.currentDOY) := by
  refine ⟨⟨(reachable_invariant s h).1, (reachable_invariant s h).2.1⟩, rfl, ?_, ?_, ?_, ?_⟩
  · intro s2 δ
    rw [animateTick_currentDOY s2 δ]
    split_ifs with hw
    · exact Or.inr rfl
    · exact Or.inl (not_le.mp hw)
  · intro s2 d
    have hse : (START_DOY : ℚ) ≤ END_DOY := by norm_num [START_DOY, END_DOY]
    exact ⟨le_max_left _ _, max_le hse (min_le_left _ _)⟩
  · intro s2
    rfl
  · intro s2
    exact ⟨play_currentDOY s2, rfl, fun sp => rfl⟩

/-! ## Radius scaling lemmas -/

/-- getRadiusFromDiameter with the intermediate bindings expanded. -/
lemma getRadiusFromDiameter_eq (dbh : ℝ) :
    getRadiusFromDiameter dbh =
      MIN_RADIUS +
        ((max MIN_DBH (min MAX_DBH (if 0 < dbh then dbh else DEFAULT_DBH))) / MIN_DBH)
            ^ (0.85 : ℝ) /
          ((MAX_DBH / MIN_DBH) ^ (0.85 : ℝ)) * (MAX_RADIUS - MIN_RADIUS) := rfl

/-- The radius always lies in the configured pixel range. -/
lemma getRadiusFromDiameter_bounds (d : ℝ) :
    MIN_RADIUS ≤ getRadiusFromDiameter d ∧ getRadiusFromDiameter d ≤ MAX_RADIUS := by
  rw [getRadiusFromDiameter_eq d]
  set c := max MIN_DBH (min MAX_DBH (if 0 < d then d else DEFAULT_DBH)) with hc
  have hMIN : (0 : ℝ) < MIN_DBH := by norm_num [MIN_DBH]
  have hc3 : MIN_DBH ≤ c := le_max_left _ _
  have hc45 : c ≤ MAX_DBH := max_le (by norm_num [MIN_DBH, MAX_DBH]) (min_le_left _ _)
  have hratio1 : (1 : ℝ) ≤ c / MIN_DBH := (one_le_div hMIN).mpr hc3
  have hratio15 : c / MIN_DBH ≤ MAX_DBH / MIN_DBH := (div_le_div_iff_of_pos_right hMIN).mpr hc45
  have hnorm0 : (0 : ℝ) ≤ (c / MIN_DBH) ^ (0.85 : ℝ) :=
    Real.rpow_nonneg (le_trans zero_le_one hratio1) _
  have hnormle : (c / MIN_DBH) ^ (0.85 : ℝ) ≤ (MAX_DBH / MIN_DBH) ^ (0.85 : ℝ) :=
    Real.rpow_le_rpow (le_trans zero_le_one hratio1) hratio15 (by norm_num)
  have hmaxpos : (0 : ℝ) < (MAX_DBH / MIN_DBH) ^ (0.85 : ℝ) :=
    Real.rpow_pos_of_pos (by norm_num [MIN_DBH, MAX_DBH]) _
  have ht0 : 0 ≤ (c / MIN_DBH) ^ (0.85 : ℝ) / ((MAX_DBH / MIN_DBH) ^ (0.85 : ℝ)) :=
    div_nonneg hnorm0 (le_of_lt hmaxpos)
  have ht1 : (c / MIN_DBH) ^ (0.85 : ℝ) / ((MAX_DBH / MIN_DBH) ^ (0.85 : ℝ)) ≤ 1 :=
    (div_le_one hmaxpos).mpr hnormle
  have hspan : (0 : ℝ) ≤ MAX_RADIUS - MIN_RADIUS := by norm_num [MIN_RADIUS, MAX_RADIUS]
  constructor
  · have := mul_nonneg ht0 hspan
    linarith
  · have hmul : (c / MIN_DBH) ^ (0.85 : ℝ) / ((MAX_DBH / MIN_DBH) ^ (0.85 : ℝ)) *
        (MAX_RADIUS - MIN_RADIUS) ≤ 1 * (MAX_RADIUS - MIN_RADIUS) :=
      mul_le_mul_of_nonneg_right ht1 hspan
    have hone : MIN_RADIUS + 1 * (MAX_RADIUS - MIN_RADIUS) = MAX_RADIUS := by ring
    linarith

/-- The radius is monotone non-decreasing on positive diameters. -/
lemma getRadiusFromDiameter_mono (d1 d2 : ℝ) (h0 : 0 < d1) (h12 : d1 ≤ d2) :
    getRadiusFromDiameter d1 ≤ getRadiusFromDiameter d2 := by
  rw [getRadiusFromDiameter_eq d1, getRadiusFromDiameter_eq d2,
    if_pos h0, if_pos (lt_of_lt_of_le h0 h12)]
  have hMIN : (0 : ℝ) < MIN_DBH := by norm_num [MIN_DBH]
  have hcle : max MIN_DBH (min MAX_DBH d1) ≤ max MIN_DBH (min MAX_DBH d2) :=
    max_le_max (le_refl _) (min_le_min (le_refl _) h12)
  have hc0 : (0 : ℝ) ≤ max MIN_DBH (min MAX_DBH d1) / MIN_DBH :=
    div_nonneg (le_trans (le_of_lt hMIN) (le_max_left _ _)) (le_of_lt hMIN)
  have hnle : (max MIN_DBH (min MAX_DBH d1) / MIN_DBH) ^ (0.85 : ℝ) ≤
      (max MIN_DBH (min MAX_DBH d2) / MIN_DBH) ^ (0.85 : ℝ) :=
    Real.rpow_le_rpow hc0 ((div_le_div_iff_of_pos_right hMIN).mpr hcle) (by norm_num)
  have hmaxpos : (0 : ℝ) < (MAX_DBH / MIN_DBH) ^ (0.85 : ℝ) :=
    Real.rpow_pos_of_pos (by norm_num [MIN_DBH, MAX_DBH]) _
  have hdivle := (div_le_div_iff_of_pos_right hmaxpos).mpr hnle
  have hspan : (0 : ℝ) ≤ MAX_RADIUS - MIN_RADIUS := by norm_num [MIN_RADIUS, MAX_RADIUS]
  have := mul_le_mul_of_nonneg_right hdivle hspan
  linarith

/-! ## Claim theorem: diameter to radius -/

/-- Claim C9: the diameter-to-radius function is monotone non-decreasing on
    positive diameters, always lands in the fixed pixel range from MIN_RADIUS
    to MAX_RADIUS, and maps the unknown diameter zero to the radius of the
    default DBH of ten inches. -/
theorem claim_C9_radius_contract :
    (∀ d1 d2 : ℝ, 0 < d1 → d1 ≤ d2 →
      getRadiusFromDiameter d1 ≤ getRadiusFromDiameter d2) ∧
    (∀ d : ℝ, MIN_RADIUS ≤ getRadiusFromDiameter d ∧
      getRadiusFromDiameter d ≤ MAX_RADIUS) ∧
    getRadiusFromDiameter 0 = getRadiusFromDiameter DEFAULT_DBH := by
  refine ⟨getRadiusFromDiameter_mono, getRadiusFromDiameter_bounds, ?_⟩
  rw [getRadiusFromDiameter_eq 0, getRadiusFromDiameter_eq DEFAULT_DBH]
  norm_num [DEFAULT_DBH]

/-- Witness for C9: monotone between two concrete diameters. -/
theorem claim_C9_witness :
    getRadiusFromDiameter 1 ≤ getRadiusFromDiameter 2 :=
  claim_C9_radius_contract.1 1 2 one_pos one_le_two

/-- Witness for C10 at the initial state. -/
theorem claim_C10_witness :
    (START_DOY ≤ initState.currentDOY ∧ initState.currentDOY ≤ END_DOY) ∧
    initState.currentDOY = START_DOY ∧
    (∀ s2 : AnimationState, ∀ δ : ℚ,
      (animateTick s2 δ).currentDOY < END_DOY ∨
      (animateTick s2 δ).currentDOY = START_DOY) ∧
    (∀ s2 : AnimationState, ∀ d : ℚ,
      START_DOY ≤ (seekTo s2 d).currentDOY ∧ (seekTo s2 d).currentDOY ≤ END_DOY) ∧
    (∀ s2 : AnimationState, (reset s2).currentDOY = START_DOY) ∧
    (∀ s2 : AnimationState, (play s2).currentDOY = s2.currentDOY ∧
      (pause s2).currentDOY = s2.currentDOY ∧
      ∀ sp : ℚ, (setSpeed s2 sp).currentDOY = s2.currentDOY) :=
  claim_C10_clock_invariant initState Reachable.init
